import Mathlib

/-!
Verification of the Listing Search & Aggregation Pipeline of the
pokemon-card price-search application (files `MercariScraper.py`,
`Utils.py`, `app.py`, `App.py`, `Config.py`).

The Python source is shallowly embedded:
* dictionaries with a fixed key set become structures with `Option` fields
  for keys that are present only on some code paths;
* the external `mercapi` transport is a parameter of type
  `Except TransportError SearchResponse`, standing for the outcome of the
  single awaited `mercapi.search(...)` call (`str(e)` of a raised exception
  is modelled by `TransportError.pyStr`);
* Python `int` is `Int`, `float` results of `statistics.mean` /
  `statistics.median` / `round(_, 2)` are modelled by exact rationals;
* CPython's `sorted(key=...)` (documented stable; `reverse=True` reverses
  comparisons, not the output, so ties keep original order) is modelled by
  the decorate-sort-undecorate equivalent: sorting index-decorated elements
  by the total order (key, original index).
-/

/-- Config.py: `DEFAULT_SEARCH_LIMIT = 120`. -/
def DEFAULT_SEARCH_LIMIT : Nat := 120

/-- Config.py / app.py: `MERCARI_ITEM_URL = "https://jp.mercari.com/item"`. -/
def MERCARI_ITEM_URL : String := "https://jp.mercari.com/item"

/-- A raw result record of the external provider, as read by the parsing
loops (`item.id`, `item.name`, `item.price`, `item.status`,
`item.thumbnails`, and—only behind a `hasattr` test—`item.created`,
modelled as an `Option` and already in its `str(...)` form). -/
structure RawItem where
  id : String
  name : String
  price : Int
  status : String
  thumbnails : List String
  created : Option String
deriving DecidableEq, Repr

/-- The object returned by `mercapi.search`: `results.items` plus
`results.meta.num_found` behind a `hasattr(results, 'meta')` test. -/
structure SearchResponse where
  items : List RawItem
  meta_num_found : Option Nat
deriving DecidableEq, Repr

/-- Transport-failure kinds named by the error-handling design (timeout,
non-2xx status, malformed payload, connection error). -/
inductive TransportKind where
  | timeout
  | httpStatus
  | malformedPayload
  | connectionError
deriving DecidableEq, Repr

/-- An exception raised by the transport; `msg` is its `str(e)` text. -/
structure TransportError where
  kind : TransportKind
  msg : String
deriving DecidableEq, Repr

/-- Python `str(e)` for a transport exception. -/
def TransportError.pyStr (e : TransportError) : String := e.msg

/-- MercariScraper.py lines 36-38 / app.py lines 44-46:
`search_query = f"ポケモンカード {card_number}"` followed by
`if card_name: search_query += f" {card_name}"` (a `None` or empty
`card_name` is falsy and is not appended). -/
def build_query (card_number : String) (card_name : Option String) : String :=
  let search_query := "ポケモンカード " ++ card_number
  match card_name with
  | some n => if n = "" then search_query else search_query ++ " " ++ n
  | none => search_query

/-- The listing dictionary built per raw item in
MercariScraper.search_pokemon_card (lines 52-60). -/
structure ListingRec where
  item_id : String
  name : String
  price : Int
  status : String
  thumbnail : String
  url : String
  created_at : Option String
deriving DecidableEq, Repr

/-- MercariScraper.py lines 52-60: one iteration of the result-parsing
loop. `price` and `status` are copied verbatim; `thumbnail` is
`item.thumbnails[0] if item.thumbnails else ""`; `url` is
`f"{config.MERCARI_ITEM_URL}/{item.id}"`. -/
def parse_item (item : RawItem) : ListingRec :=
  { item_id := item.id
    name := item.name
    price := item.price
    status := item.status
    thumbnail := match item.thumbnails with
      | [] => ""
      | t :: _ => t
    url := MERCARI_ITEM_URL ++ "/" ++ item.id
    created_at := item.created }

/-- The dictionary returned by MercariScraper.search_pokemon_card.
Keys present on only one branch (`query`, `total_found`, `error`) are
`Option` fields. -/
structure SearchOutcomeDict where
  success : Bool
  query : Option String
  total_found : Option Nat
  listings : List ListingRec
  error : Option String
deriving DecidableEq, Repr

/-- MercariScraper.py lines 35-75: build the query, await the transport;
on success parse every item and return the success dictionary
(`total_found` uses `results.meta.num_found` when `meta` exists, else
`len(listings)`); on any exception return
`{'success': False, 'error': str(e), 'listings': []}`. -/
def search_pokemon_card (card_number : String) (card_name : Option String)
    (transport : Except TransportError SearchResponse) : SearchOutcomeDict :=
  let search_query := build_query card_number card_name
  match transport with
  | Except.ok results =>
      let listings := results.items.map parse_item
      { success := true
        query := some search_query
        total_found := some (match results.meta_num_found with
          | some n => n
          | none => listings.length)
        listings := listings
        error := none }
  | Except.error e =>
      { success := false
        query := none
        total_found := none
        listings := []
        error := some e.pyStr }

/-- The listing dictionary built per raw item in app.py search_card_sync
(lines 65-72); unlike the MercariScraper one it has no `created_at` key. -/
structure AppListingRec where
  item_id : String
  name : String
  price : Int
  status : String
  thumbnail : String
  url : String
deriving DecidableEq, Repr

/-- app.py lines 65-72: one iteration of the result-parsing loop. -/
def app_parse_item (item : RawItem) : AppListingRec :=
  { item_id := item.id
    name := item.name
    price := item.price
    status := item.status
    thumbnail := match item.thumbnails with
      | [] => ""
      | t :: _ => t
    url := MERCARI_ITEM_URL ++ "/" ++ item.id }

/-- The dictionary returned by app.py search_card_sync. -/
structure AppSearchDict where
  success : Bool
  query : Option String
  listings : List AppListingRec
  error : Option String
deriving DecidableEq, Repr

/-- app.py lines 34-86: search_card_sync.  When mercapi is unavailable it
returns a fixed failure dictionary; otherwise it builds the query, runs
the transport, parses on success, and on any exception returns
`{'success': False, 'error': str(e), 'listings': []}`. -/
def app_search_card_sync (mercapiAvailable : Bool) (card_number : String)
    (card_name : Option String)
    (transport : Except TransportError SearchResponse) : AppSearchDict :=
  if mercapiAvailable = false then
    { success := false
      query := none
      listings := []
      error := some "mercapi 라이브러리가 필요합니다. pip install mercapi" }
  else
    let search_query := build_query card_number card_name
    match transport with
    | Except.ok results =>
        { success := true
          query := some search_query
          listings := results.items.map app_parse_item
          error := none }
    | Except.error e =>
        { success := false
          query := none
          listings := []
          error := some e.pyStr }

/-- Python `str.strip()`: drop leading and trailing whitespace.  (Lean's
built-in `String.trim` is extensionally the same but does not reduce in
the kernel, so the character-list form is used.) -/
def pyStrip (s : String) : String :=
  String.mk (((s.data.dropWhile Char.isWhitespace).reverse.dropWhile
    Char.isWhitespace).reverse)

/-- Outcome of submitting the search form: either the UI shows an error
message and returns, or a search is invoked with the given query. -/
inductive SubmitOutcome where
  | rejected (msg : String)
  | searched (query : String)
deriving DecidableEq, Repr

/-- app.py main, lines 170-177: `if not card_number.strip():` show an
error and return, else call
`search_card_sync(card_number.strip(), card_name.strip() if card_name else None)`,
which builds the query via `build_query`. -/
def app_main_submit (card_number card_name : String) : SubmitOutcome :=
  if pyStrip card_number = "" then
    SubmitOutcome.rejected "카드 번호를 입력해주세요!"
  else
    SubmitOutcome.searched
      (build_query (pyStrip card_number)
        (if card_name = "" then none else some (pyStrip card_name)))

/-- App.py main, lines 78-85: `if not card_number:` show an error and
return, else call `search_card_sync(card_number, card_name)` (no
trimming; `card_name` is passed through and is falsy when empty). -/
def App_main_submit (card_number card_name : String) : SubmitOutcome :=
  if card_number = "" then
    SubmitOutcome.rejected "카드 번호를 입력해주세요!"
  else
    SubmitOutcome.searched (build_query card_number (some card_name))

/-- Python `statistics.mean` on a list of ints: the exact mean (callers
guard against the empty list). -/
def pymean (prices : List Int) : ℚ :=
  ((prices.sum : Int) : ℚ) / (prices.length : ℚ)

/-- Python `statistics.median` on a list of ints: sort ascending; odd
length gives the middle element, even length the average of the two
middle elements (callers guard against the empty list). -/
def pymedian (prices : List Int) : ℚ :=
  let s := List.insertionSort (· ≤ ·) prices
  let n := prices.length
  if n % 2 = 1 then ((s.getD (n / 2) 0 : Int) : ℚ)
  else (((s.getD (n / 2 - 1) 0 + s.getD (n / 2) 0 : Int) : ℚ)) / 2

/-- Round to the nearest integer, ties to the even integer (Python's
`round`). -/
def roundHalfEven (q : ℚ) : ℤ :=
  let f := ⌊q⌋
  if q - f < 1/2 then f
  else if (1 : ℚ)/2 < q - f then f + 1
  else if f % 2 = 0 then f else f + 1

/-- Python `round(x, 2)`. -/
def pyround2 (q : ℚ) : ℚ := ((roundHalfEven (q * 100) : ℤ) : ℚ) / 100

/-- The dictionary returned by Utils.calculate_price_statistics. -/
structure PriceStats where
  total_listings : Nat
  active_listings : Nat
  sold_listings : Nat
  average_price : Option ℚ
  median_price : Option ℚ
  min_price : Option Int
  max_price : Option Int
  active_prices : List Int
  sold_prices : List Int
deriving DecidableEq, Repr

/-- Utils.py lines 27-43: the classification loop of
calculate_price_statistics — one pass appending each listing's price to
`sold_prices` when `listing['status'] == 'sold_out'`, else to
`active_prices`. -/
def classifyPrices (listings : List ListingRec) : List Int × List Int :=
  listings.foldl
    (fun acc l =>
      if l.status = "sold_out" then (acc.1, acc.2 ++ [l.price])
      else (acc.1 ++ [l.price], acc.2))
    ([], [])

/-- Utils.py lines 12-58: calculate_price_statistics.  Empty input short
circuits to the all-zero / all-`None` dictionary; otherwise prices are
classified by status, `all_prices = active_prices + sold_prices`, and
mean/median are rounded to 2 places (each numeric field guarded by
`if all_prices else None`; `List.min?`/`List.max?` are exactly
`min(all_prices) if all_prices else None` and the `max` analogue). -/
def calculate_price_statistics (listings : List ListingRec) : PriceStats :=
  if listings = [] then
    { total_listings := 0
      active_listings := 0
      sold_listings := 0
      average_price := none
      median_price := none
      min_price := none
      max_price := none
      active_prices := []
      sold_prices := [] }
  else
    let active_prices := (classifyPrices listings).1
    let sold_prices := (classifyPrices listings).2
    let all_prices := active_prices ++ sold_prices
    { total_listings := listings.length
      active_listings := active_prices.length
      sold_listings := sold_prices.length
      average_price :=
        if all_prices = [] then none else some (pyround2 (pymean all_prices))
      median_price :=
        if all_prices = [] then none else some (pyround2 (pymedian all_prices))
      min_price := all_prices.min?
      max_price := all_prices.max?
      active_prices := active_prices
      sold_prices := sold_prices }

/-- The dictionary returned by app.py calculate_stats. -/
structure Stats where
  total : Nat
  active : Nat
  sold : Nat
  avg : Option ℚ
  median : Option ℚ
  min : Option Int
  max : Option Int
  active_prices : List Int
  sold_prices : List Int
deriving DecidableEq, Repr

/-- app.py lines 89-112: calculate_stats.  The function reads only the
`price` and `status` keys, so it is stated over the same listing record
as the Utils aggregator.  `active_prices` / `sold_prices` are the two
list comprehensions filtering on `status != 'sold_out'` and
`status == 'sold_out'`. -/
def calculate_stats (listings : List ListingRec) : Stats :=
  if listings = [] then
    { total := 0, active := 0, sold := 0
      avg := none, median := none, min := none, max := none
      active_prices := [], sold_prices := [] }
  else
    let active_prices :=
      (listings.filter (fun l => l.status != "sold_out")).map (fun l => l.price)
    let sold_prices :=
      (listings.filter (fun l => l.status == "sold_out")).map (fun l => l.price)
    let all_prices := active_prices ++ sold_prices
    { total := listings.length
      active := active_prices.length
      sold := sold_prices.length
      avg :=
        if all_prices = [] then none else some (pyround2 (pymean all_prices))
      median :=
        if all_prices = [] then none else some (pyround2 (pymedian all_prices))
      min := all_prices.min?
      max := all_prices.max?
      active_prices := active_prices
      sold_prices := sold_prices }

/-- Utils.py lines 127-151: filter_listings_by_price.  Starting from the
input, apply `price >= min_price` when `min_price is not None`, then
`price <= max_price` when `max_price is not None`. -/
def filter_listings_by_price (listings : List ListingRec)
    (min_price max_price : Option Int) : List ListingRec :=
  let filtered := listings
  let filtered := match min_price with
    | some m => filtered.filter (fun l => decide (m ≤ l.price))
    | none => filtered
  let filtered := match max_price with
    | some m => filtered.filter (fun l => decide (l.price ≤ m))
    | none => filtered
  filtered

/-- Utils.py lines 154-168: filter_listings_by_status — keep the listings
whose `status` equals the requested value. -/
def filter_listings_by_status (listings : List ListingRec)
    (status : String) : List ListingRec :=
  listings.filter (fun l => l.status == status)

/-- The predicate the spec states for the price filter: price is at least
the lower bound when supplied and at most the upper bound when supplied
(an absent bound imposes no constraint). -/
def inPriceBounds (min_price max_price : Option Int) (l : ListingRec) : Bool :=
  (match min_price with
    | some a => decide (a ≤ l.price)
    | none => true) &&
  (match max_price with
    | some b => decide (l.price ≤ b)
    | none => true)

/-- Comparison used by the decorate-sort-undecorate model of CPython's
stable `sorted(key=lambda x: x['price'])`: order index-decorated listings
by (price, original index) for `reverse=False` and by
(price descending, original index) for `reverse=True`. -/
def sortKeyRel : Bool → (Nat × ListingRec) → (Nat × ListingRec) → Prop
  | false, a, b => a.2.price < b.2.price ∨ (a.2.price = b.2.price ∧ a.1 ≤ b.1)
  | true, a, b => b.2.price < a.2.price ∨ (b.2.price = a.2.price ∧ a.1 ≤ b.1)

instance : (reverse : Bool) → DecidableRel (sortKeyRel reverse)
  | false, _, _ => inferInstanceAs (Decidable (_ ∨ _))
  | true, _, _ => inferInstanceAs (Decidable (_ ∨ _))

instance (reverse : Bool) : IsTotal (Nat × ListingRec) (sortKeyRel reverse) where
  total a b := by
    cases reverse <;> simp only [sortKeyRel] <;> omega

instance (reverse : Bool) : IsTrans (Nat × ListingRec) (sortKeyRel reverse) where
  trans a b c hab hbc := by
    cases reverse <;> simp only [sortKeyRel] at * <;> omega

/-- The index-decorated sort underlying `sort_by_price`
(`ascending = true` is `sorted(key=price)`, `ascending = false` is
`sorted(key=price, reverse=True)`; app.py lines 296-299). -/
def sortDecorated (ascending : Bool) (listings : List ListingRec) :
    List (Nat × ListingRec) :=
  List.insertionSort (sortKeyRel (!ascending)) listings.enum

/-- app.py lines 296-299 (display_results): the price sort of the
filtered listings, in both directions. -/
def sort_by_price (ascending : Bool) (listings : List ListingRec) :
    List ListingRec :=
  (sortDecorated ascending listings).map Prod.snd

/-- Two successive filters commute. -/
theorem filter_swap {α : Type} (p q : α → Bool) (l : List α) :
    (l.filter p).filter q = (l.filter q).filter p := by
  induction l with
  | nil => rfl
  | cons a t ih => cases hp : p a <;> cases hq : q a <;>
      simp [List.filter_cons, hp, hq, ih]

/-- Two successive filters fuse into one conjunctive filter. -/
theorem filter_fuse {α : Type} (p q : α → Bool) (l : List α) :
    (l.filter p).filter q = l.filter (fun a => p a && q a) := by
  induction l with
  | nil => rfl
  | cons a t ih => cases hp : p a <;> cases hq : q a <;>
      simp [List.filter_cons, hp, hq, ih]

/-- A filter and its complement split the length of a list. -/
theorem length_filter_split {α : Type} (p : α → Bool) (l : List α) :
    (l.filter p).length + (l.filter (fun a => !(p a))).length = l.length := by
  induction l with
  | nil => rfl
  | cons a t ih => cases h : p a <;> simp [List.filter_cons, h] <;> omega

/-- The single-pass classification loop of Utils.calculate_price_statistics
equals the pair of comprehension-style filters of app.calculate_stats,
for arbitrary accumulators. -/
theorem classifyPrices_go (listings : List ListingRec) (a s : List Int) :
    listings.foldl
      (fun acc l =>
        if l.status = "sold_out" then (acc.1, acc.2 ++ [l.price])
        else (acc.1 ++ [l.price], acc.2))
      (a, s) =
      (a ++ (listings.filter (fun l => l.status != "sold_out")).map
          (fun l => l.price),
       s ++ (listings.filter (fun l => l.status == "sold_out")).map
          (fun l => l.price)) := by
  induction listings generalizing a s with
  | nil => simp
  | cons hd tl ih =>
    by_cases h : hd.status = "sold_out" <;>
      simp [List.filter_cons, h, ih, List.append_assoc]

/-- Closed form of `classifyPrices`. -/
theorem classifyPrices_eq (listings : List ListingRec) :
    classifyPrices listings =
      ((listings.filter (fun l => l.status != "sold_out")).map
          (fun l => l.price),
       (listings.filter (fun l => l.status == "sold_out")).map
          (fun l => l.price)) := by
  simpa using classifyPrices_go listings [] []

/-- Every position of a list appears, paired with its element, in the
enumeration of the list. -/
theorem mem_enum_of_lt (l : List ListingRec) (i : Nat) (hi : i < l.length) :
    (i, l.get ⟨i, hi⟩) ∈ l.enum := by
  have hi2 : i < l.enum.length := by simpa [List.enum_length] using hi
  have h1 := List.getElem_enum l i hi2
  have h2 : l.enum[i] ∈ l.enum := List.getElem_mem hi2
  rw [h1] at h2
  simpa using h2

/-- A listing used by the stability example: price as given, all other
fields fixed. -/
def exItem (i : String) (p : Int) : ListingRec :=
  { item_id := i
    name := "item " ++ i
    price := p
    status := "on_sale"
    thumbnail := ""
    url := MERCARI_ITEM_URL ++ "/" ++ i
    created_at := none }

/-- Listing at original index 0, price 200. -/
def ex0 : ListingRec := exItem "0" 200

/-- Listing at original index 1, price 100. -/
def ex1 : ListingRec := exItem "1" 100

/-- Listing at original index 2, price 200. -/
def ex2 : ListingRec := exItem "2" 200

/-- Listing at original index 3, price 50. -/
def ex3 : ListingRec := exItem "3" 50

/-- The stability example of the spec: prices [200, 100, 200, 50] at
original indices [0, 1, 2, 3]. -/
def exListings : List ListingRec := [ex0, ex1, ex2, ex3]

/-- A raw record carrying an unrecognized status value. -/
def rawTradingItem : RawItem :=
  { id := "m1", name := "pikachu", price := 500, status := "trading",
    thumbnails := [], created := none }

/-- A well-formed raw record. -/
def c8item_a : RawItem :=
  { id := "a", name := "card a", price := 1000, status := "on_sale",
    thumbnails := ["ta"], created := some "2024-01-01 00:00:00" }

/-- A well-formed raw record. -/
def c8item_b : RawItem :=
  { id := "b", name := "card b", price := 800, status := "sold_out",
    thumbnails := [], created := none }

/-- A well-formed raw record. -/
def c8item_c : RawItem :=
  { id := "c", name := "card c", price := 1200, status := "on_sale",
    thumbnails := [], created := none }

/-- A raw record with a negative price. -/
def c8item_bad : RawItem :=
  { id := "d", name := "card d", price := -5, status := "on_sale",
    thumbnails := [], created := none }

/-- A payload of three well-formed records plus one record with a
negative price. -/
def c8payload : SearchResponse :=
  { items := [c8item_a, c8item_b, c8item_c, c8item_bad],
    meta_num_found := none }

/-- C2: calculate_price_statistics (and the app.py aggregator) applied to
the empty listing sequence returns total=0, active=0, sold=0, empty price
lists and `None` (the absent-marker) for mean, median, min and max; and
the aggregators are defined on every well-formed listing sequence (the
total field always equals the input length). -/
theorem c2_stats_empty_and_total :
    calculate_price_statistics [] =
      { total_listings := 0, active_listings := 0, sold_listings := 0,
        average_price := none, median_price := none,
        min_price := none, max_price := none,
        active_prices := [], sold_prices := [] } ∧
    calculate_stats [] =
      { total := 0, active := 0, sold := 0,
        avg := none, median := none, min := none, max := none,
        active_prices := [], sold_prices := [] } ∧
    ∀ listings : List ListingRec,
      (calculate_price_statistics listings).total_listings = listings.length ∧
      (calculate_stats listings).total = listings.length := by
  refine ⟨rfl, rfl, fun listings => ?_⟩
  by_cases h : listings = [] <;>
    simp [calculate_price_statistics, calculate_stats, h]

/-- C3: for every listing sequence, both aggregators satisfy
active-count + sold-count = total, and the active (resp. sold) price list
has length equal to the active (resp. sold) count. -/
theorem c3_partition_counts (listings : List ListingRec) :
    (calculate_price_statistics listings).active_listings +
        (calculate_price_statistics listings).sold_listings =
      (calculate_price_statistics listings).total_listings ∧
    (calculate_price_statistics listings).active_prices.length =
      (calculate_price_statistics listings).active_listings ∧
    (calculate_price_statistics listings).sold_prices.length =
      (calculate_price_statistics listings).sold_listings ∧
    (calculate_stats listings).active + (calculate_stats listings).sold =
      (calculate_stats listings).total ∧
    (calculate_stats listings).active_prices.length =
      (calculate_stats listings).active ∧
    (calculate_stats listings).sold_prices.length =
      (calculate_stats listings).sold := by
  by_cases h : listings = []
  · simp [calculate_price_statistics, calculate_stats, h]
  · have hsplit := length_filter_split
      (fun l : ListingRec => l.status == "sold_out") listings
    simp [calculate_price_statistics, calculate_stats, h, classifyPrices,
      classifyPrices_go]
    simp only [bne]
    omega

/-- C3 witness at a concrete two-element listing sequence. -/
theorem c3_partition_counts_witness :
    (calculate_price_statistics [exItem "a" 100, exItem "b" 300]).active_listings +
        (calculate_price_statistics [exItem "a" 100, exItem "b" 300]).sold_listings =
      (calculate_price_statistics [exItem "a" 100, exItem "b" 300]).total_listings ∧
    (calculate_price_statistics [exItem "a" 100, exItem "b" 300]).active_prices.length =
      (calculate_price_statistics [exItem "a" 100, exItem "b" 300]).active_listings ∧
    (calculate_price_statistics [exItem "a" 100, exItem "b" 300]).sold_prices.length =
      (calculate_price_statistics [exItem "a" 100, exItem "b" 300]).sold_listings ∧
    (calculate_stats [exItem "a" 100, exItem "b" 300]).active +
        (calculate_stats [exItem "a" 100, exItem "b" 300]).sold =
      (calculate_stats [exItem "a" 100, exItem "b" 300]).total ∧
    (calculate_stats [exItem "a" 100, exItem "b" 300]).active_prices.length =
      (calculate_stats [exItem "a" 100, exItem "b" 300]).active ∧
    (calculate_stats [exItem "a" 100, exItem "b" 300]).sold_prices.length =
      (calculate_stats [exItem "a" 100, exItem "b" 300]).sold :=
  c3_partition_counts [exItem "a" 100, exItem "b" 300]

/-- C10: the Utils.py aggregator and the app.py aggregator agree field
for field, under the renaming total_listings/total, active_listings/active,
sold_listings/sold, average_price/avg, median_price/median, min_price/min,
max_price/max, active_prices/active_prices, sold_prices/sold_prices. -/
theorem c10_aggregators_equiv (listings : List ListingRec) :
    (calculate_price_statistics listings).total_listings =
      (calculate_stats listings).total ∧
    (calculate_price_statistics listings).active_listings =
      (calculate_stats listings).active ∧
    (calculate_price_statistics listings).sold_listings =
      (calculate_stats listings).sold ∧
    (calculate_price_statistics listings).average_price =
      (calculate_stats listings).avg ∧
    (calculate_price_statistics listings).median_price =
      (calculate_stats listings).median ∧
    (calculate_price_statistics listings).min_price =
      (calculate_stats listings).min ∧
    (calculate_price_statistics listings).max_price =
      (calculate_stats listings).max ∧
    (calculate_price_statistics listings).active_prices =
      (calculate_stats listings).active_prices ∧
    (calculate_price_statistics listings).sold_prices =
      (calculate_stats listings).sold_prices := by
  by_cases h : listings = []
  · simp [calculate_price_statistics, calculate_stats, h]
  · simp [calculate_price_statistics, calculate_stats, h, classifyPrices,
      classifyPrices_go]

/-- C5: the price filter and the status filter commute — filtering by
price then by status yields the same listing sequence (hence the same
set) as filtering by status then by price, for every listing sequence,
status value and pair of optional bounds. -/
theorem c5_filter_commute (L : List ListingRec) (s : String)
    (mn mx : Option Int) :
    filter_listings_by_status (filter_listings_by_price L mn mx) s =
      filter_listings_by_price (filter_listings_by_status L s) mn mx := by
  cases mn with
  | none =>
    cases mx with
    | none => rfl
    | some b =>
      simpa [filter_listings_by_price, filter_listings_by_status] using
        filter_swap (fun l : ListingRec => decide (l.price ≤ b))
          (fun l => l.status == s) L
  | some a =>
    cases mx with
    | none =>
      simpa [filter_listings_by_price, filter_listings_by_status] using
        filter_swap (fun l : ListingRec => decide (a ≤ l.price))
          (fun l => l.status == s) L
    | some b =>
      simp only [filter_listings_by_price, filter_listings_by_status]
      rw [filter_swap (fun l : ListingRec => decide (l.price ≤ b))
          (fun l => l.status == s),
        filter_swap (fun l : ListingRec => decide (a ≤ l.price))
          (fun l => l.status == s)]

/-- C6: the price filter keeps exactly the listings whose price is at
least the lower bound when supplied and at most the upper bound when
supplied (inclusive on both sides, an absent bound unconstrained); in
particular with min = max = X it keeps exactly the listings with
price = X. -/
theorem c6_price_filter_exact (L : List ListingRec) (mn mx : Option Int)
    (X : Int) :
    filter_listings_by_price L mn mx = L.filter (inPriceBounds mn mx) ∧
    filter_listings_by_price L (some X) (some X) =
      L.filter (fun l => l.price == X) := by
  constructor
  · cases mn with
    | none =>
      cases mx with
      | none => exact (List.filter_true L).symm
      | some b => rfl
    | some a =>
      cases mx with
      | none =>
        exact List.filter_congr fun l _ => (Bool.and_true _).symm
      | some b =>
        simp only [filter_listings_by_price, inPriceBounds]
        exact filter_fuse _ _ L
  · simp only [filter_listings_by_price]
    rw [filter_fuse]
    refine List.filter_congr fun l _ => ?_
    rw [Bool.eq_iff_iff]
    simp only [Bool.and_eq_true, decide_eq_true_eq, beq_iff_eq]
    omega

/-- C9 counterexample: the query construction does not fail on an
identifier that is empty after trimming — it produces a query string; and
the App.py pipeline even submits a search for the whitespace-only
identifier, since its guard tests only `not card_number`. -/
theorem c9_counterexample :
    build_query "   " none = "ポケモンカード    " ∧
    App_main_submit "   " "" = SubmitOutcome.searched "ポケモンカード    " := by
  exact ⟨rfl, rfl⟩

/-- C9 amended: the query construction itself never fails — it returns
the fixed prefix followed by the identifier for every identifier,
including empty or whitespace-only ones.  Rejection of an identifier that
is empty after trimming is performed by the app.py UI caller before any
search is invoked; the App.py caller rejects only the literally empty
identifier. -/
theorem c9_query_total_ui_guard (card_number card_name : String)
    (h : pyStrip card_number = "") :
    build_query card_number none = "ポケモンカード " ++ card_number ∧
    app_main_submit card_number card_name =
      SubmitOutcome.rejected "카드 번호를 입력해주세요!" ∧
    (card_number = "" →
      App_main_submit card_number card_name =
        SubmitOutcome.rejected "카드 번호를 입력해주세요!") := by
  refine ⟨rfl, ?_, ?_⟩
  · simp [app_main_submit, h]
  · intro h2
    simp [App_main_submit, h2]

/-- C9 witness: the amended claim at the whitespace-only identifier. -/
theorem c9_query_total_ui_guard_witness :
    build_query "   " none = "ポケモンカード " ++ "   " ∧
    app_main_submit "   " "" =
      SubmitOutcome.rejected "카드 번호를 입력해주세요!" ∧
    ("   " = "" →
      App_main_submit "   " "" =
        SubmitOutcome.rejected "카드 번호를 입력해주세요!") :=
  c9_query_total_ui_guard "   " "" (by decide)

/-- C1: whenever the transport raises (any kind, any non-empty exception
text), both search implementations return a result value — success flag
false, the exception's text as the error message (hence non-empty), and
an empty listings sequence; no exception propagates to the caller. -/
theorem c1_client_error_result (card_number : String)
    (card_name : Option String) (e : TransportError) (h : e.pyStr ≠ "") :
    (search_pokemon_card card_number card_name (Except.error e)).success
      = false ∧
    (search_pokemon_card card_number card_name (Except.error e)).listings
      = [] ∧
    (search_pokemon_card card_number card_name (Except.error e)).error
      = some e.pyStr ∧
    e.pyStr ≠ "" ∧
    (app_search_card_sync true card_number card_name (Except.error e)).success
      = false ∧
    (app_search_card_sync true card_number card_name (Except.error e)).listings
      = [] ∧
    (app_search_card_sync true card_number card_name (Except.error e)).error
      = some e.pyStr :=
  ⟨rfl, rfl, rfl, h, rfl, rfl, rfl⟩

/-- C1 witness: a concrete timed-out request. -/
theorem c1_client_error_result_witness :
    (search_pokemon_card "025/165" none (Except.error
        { kind := TransportKind.timeout, msg := "Request timed out" })).success
      = false ∧
    (search_pokemon_card "025/165" none (Except.error
        { kind := TransportKind.timeout, msg := "Request timed out" })).listings
      = [] ∧
    (search_pokemon_card "025/165" none (Except.error
        { kind := TransportKind.timeout, msg := "Request timed out" })).error
      = some "Request timed out" ∧
    ("Request timed out" : String) ≠ "" ∧
    (app_search_card_sync true "025/165" none (Except.error
        { kind := TransportKind.timeout, msg := "Request timed out" })).success
      = false ∧
    (app_search_card_sync true "025/165" none (Except.error
        { kind := TransportKind.timeout, msg := "Request timed out" })).listings
      = [] ∧
    (app_search_card_sync true "025/165" none (Except.error
        { kind := TransportKind.timeout, msg := "Request timed out" })).error
      = some "Request timed out" :=
  c1_client_error_result "025/165" none
    { kind := TransportKind.timeout, msg := "Request timed out" } (by decide)

/-- C7 counterexample: a raw record with the unrecognized status
"trading" is normalized with that third status value verbatim — it is not
defaulted to the ACTIVE value "on_sale". -/
theorem c7_counterexample :
    (parse_item rawTradingItem).status = "trading" ∧
    ¬ (parse_item rawTradingItem).status = "on_sale" ∧
    ¬ (parse_item rawTradingItem).status = "sold_out" := by
  refine ⟨rfl, ?_, ?_⟩ <;> decide

/-- C7 amended: normalization copies the provider's status string into
the Listing verbatim and never drops a record; the two-valued reading
holds only behaviorally — every listing whose status differs from
"sold_out" (unrecognized values included) is classified as active by both
aggregators. -/
theorem c7_status_verbatim_active_classified (raw : RawItem)
    (h : ¬ raw.status = "sold_out") :
    (parse_item raw).status = raw.status ∧
    (∀ items : List RawItem, (items.map parse_item).length = items.length) ∧
    (calculate_stats [parse_item raw]).active = 1 ∧
    (calculate_stats [parse_item raw]).sold = 0 ∧
    (calculate_price_statistics [parse_item raw]).active_listings = 1 ∧
    (calculate_price_statistics [parse_item raw]).sold_listings = 0 := by
  refine ⟨rfl, fun items => List.length_map _ _, ?_, ?_, ?_, ?_⟩ <;>
    simp [calculate_stats, calculate_price_statistics, classifyPrices,
      parse_item, h]

/-- C7 witness: the amended claim at the "trading"-status record. -/
theorem c7_status_verbatim_active_classified_witness :
    (parse_item rawTradingItem).status = rawTradingItem.status ∧
    (∀ items : List RawItem, (items.map parse_item).length = items.length) ∧
    (calculate_stats [parse_item rawTradingItem]).active = 1 ∧
    (calculate_stats [parse_item rawTradingItem]).sold = 0 ∧
    (calculate_price_statistics [parse_item rawTradingItem]).active_listings
      = 1 ∧
    (calculate_price_statistics [parse_item rawTradingItem]).sold_listings
      = 0 :=
  c7_status_verbatim_active_classified rawTradingItem (by decide)

/-- C8 counterexample: for three well-formed records plus one with a
negative price, normalization returns four Listings — the bad record is
not skipped and its negative price is kept verbatim. -/
theorem c8_counterexample :
    (search_pokemon_card "025/165" none (Except.ok c8payload)).listings.length
      = 4 ∧
    ¬ (search_pokemon_card "025/165" none
        (Except.ok c8payload)).listings.length = 3 ∧
    (search_pokemon_card "025/165" none (Except.ok c8payload)).listings.map
        (fun l => l.price) = [1000, 800, 1200, -5] := by
  refine ⟨rfl, by decide, by decide⟩

/-- C8 amended: normalization never skips a record — both search
implementations return exactly one Listing per raw record, and every
price (negative ones included) is copied verbatim. -/
theorem c8_no_record_skipped (card_number : String)
    (card_name : Option String) (resp : SearchResponse) :
    (search_pokemon_card card_number card_name
        (Except.ok resp)).listings.length = resp.items.length ∧
    (search_pokemon_card card_number card_name (Except.ok resp)).listings.map
        (fun l => l.price) = resp.items.map (fun item => item.price) ∧
    (app_search_card_sync true card_number card_name
        (Except.ok resp)).listings.length = resp.items.length := by
  refine ⟨List.length_map _ _, ?_, List.length_map _ _⟩
  show (resp.items.map parse_item).map (fun l => l.price)
    = resp.items.map (fun item => item.price)
  rw [List.map_map]
  rfl

/-- C4: sort_by_price is stable with price as the sole key in both
directions — any two listings with equal prices appear in the sorted
output (index-decorated) in their original relative order — and on the
spec's example with prices [200, 100, 200, 50] at original indices
[0, 1, 2, 3], the ascending sort yields the listings at indices
[3, 1, 0, 2] and the descending sort those at indices [0, 2, 1, 3]. -/
theorem c4_sort_stable (ascending : Bool) (l : List ListingRec) (i j : Nat)
    (hi : i < l.length) (hj : j < l.length) (hij : i < j)
    (hp : (l.get ⟨i, hi⟩).price = (l.get ⟨j, hj⟩).price) :
    (∃ k1 k2 : Fin (sortDecorated ascending l).length, k1 < k2 ∧
        (sortDecorated ascending l).get k1 = (i, l.get ⟨i, hi⟩) ∧
        (sortDecorated ascending l).get k2 = (j, l.get ⟨j, hj⟩)) ∧
    sort_by_price true exListings = [ex3, ex1, ex0, ex2] ∧
    sort_by_price false exListings = [ex0, ex2, ex1, ex3] := by
  refine ⟨?_, by decide, by decide⟩
  have memi2 : (i, l.get ⟨i, hi⟩) ∈ sortDecorated ascending l :=
    ((List.perm_insertionSort (sortKeyRel (!ascending)) l.enum).mem_iff).mpr
      (mem_enum_of_lt l i hi)
  have memj2 : (j, l.get ⟨j, hj⟩) ∈ sortDecorated ascending l :=
    ((List.perm_insertionSort (sortKeyRel (!ascending)) l.enum).mem_iff).mpr
      (mem_enum_of_lt l j hj)
  obtain ⟨k1, hk1⟩ := List.mem_iff_get.mp memi2
  obtain ⟨k2, hk2⟩ := List.mem_iff_get.mp memj2
  have sorted :=
    List.sorted_insertionSort (sortKeyRel (!ascending)) l.enum
  have hne : k1 ≠ k2 := by
    intro hEq
    rw [hEq, hk2] at hk1
    have hfst : j = i := congrArg Prod.fst hk1
    omega
  rcases lt_or_gt_of_ne hne with hlt | hgt
  · exact ⟨k1, k2, hlt, hk1, hk2⟩
  · exfalso
    have hrel : sortKeyRel (!ascending) ((sortDecorated ascending l).get k2)
        ((sortDecorated ascending l).get k1) :=
      List.Sorted.rel_get_of_lt sorted hgt
    rw [hk1, hk2] at hrel
    cases ascending <;>
      · simp only [Bool.not_true, Bool.not_false, sortKeyRel] at hrel
        rcases hrel with h1 | ⟨h1, h2⟩ <;> omega

/-- C4 witness: stability applied to the equal-price pair at original
indices 0 and 2 of the example listing sequence, ascending direction. -/
theorem c4_sort_stable_witness :
    (∃ k1 k2 : Fin (sortDecorated true exListings).length, k1 < k2 ∧
        (sortDecorated true exListings).get k1 = (0, ex0) ∧
        (sortDecorated true exListings).get k2 = (2, ex2)) ∧
    sort_by_price true exListings = [ex3, ex1, ex0, ex2] ∧
    sort_by_price false exListings = [ex0, ex2, ex1, ex3] :=
  c4_sort_stable true exListings 0 2 (by decide) (by decide) (by decide)
    (by decide)
